import Mathlib

/-!
# Verification of the opendogeserver event dispatch engine

Shallow embedding of `src/opendogeserver/server.py` (the `Server` class:
registration, `handle_event`, the `serve` receive loop) and of
`src/opendogeserver/auth.py` (`AccountHandler.create_traveller`,
`check_account`, `gen_id`).

The repository's `opendogeserver/utilities.py` and
`opendogeserver/constants.py` are not present in the source tree; the
helpers they export (`format_res`, `format_res_err`, `to_camel_case`,
`to_snake_case`, `check_loop_data`) and the constants (`IS_LOCAL`,
`IP_RATELIMIT_MAX`) are modelled from the specification, with calling
conventions inferred from the call sites in `server.py` and `auth.py`.
External collaborators (MongoDB inserts, `email_validator.validate_email`,
`bcrypt.hashpw`, `random.choice`) are treated as boundary parameters, as
the specification prescribes.

Python dicts are modelled as association lists with unique keys:
`dinsert` is dict assignment (overwrite in place, else append at the
end, matching insertion-order semantics), `lookupStr` is key lookup and
`removeKey` is `del`.
-/

/-- Association-list lookup: first binding of the key (Python dicts hold
each key at most once, so first = only). -/
def lookupStr {α : Type} (l : List (String × α)) (k : String) : Option α :=
  match l with
  | [] => none
  | (k2, v) :: rest => if k2 = k then some v else lookupStr rest k

/-- Python dict assignment `d[k] = v`: overwrite in place, else append. -/
def dinsert {α : Type} (l : List (String × α)) (k : String) (v : α) :
    List (String × α) :=
  match l with
  | [] => [(k, v)]
  | (k2, v2) :: rest =>
      if k2 = k then (k2, v) :: rest else (k2, v2) :: dinsert rest k v

/-- Python `k in d`. -/
def hasKey {α : Type} (l : List (String × α)) (k : String) : Bool :=
  (lookupStr l k).isSome

/-- Python `del d[k]` on a dict (keys are unique, so removing every
binding of `k` is removing the one binding). -/
def removeKey {α : Type} (l : List (String × α)) (k : String) :
    List (String × α) :=
  l.filter (fun p => p.1 ≠ k)

/-- Python values that appear in messages and envelopes: strings, the
`False` ref sentinel, the injected websocket connection handle
(identified by its remote address), and integers. -/
inductive Val where
  | str (s : String)
  | fls
  | conn (ip : String)
  | num (n : Int)
deriving DecidableEq, Repr

/-- An outbound reply envelope, per spec section 3: success carries
`event`/`originalEvent`/`ref` plus payload; errors additionally carry an
`error` kind and a `message`. -/
structure Envelope where
  event : String
  originalEvent : String
  ref : Val
  error : Option String
  message : Option Val
  extra : List (String × Val)
deriving DecidableEq, Repr

/-- Modelled from the spec: `format_res` of the missing
`opendogeserver/utilities.py`. Spec section 3: success envelope
`\x7b event, originalEvent, ref, ...payload \x7d` where `event` on success
equals `originalEvent` (same name, no suffixing) and the correlation ref
is echoed verbatim. Call shape from `auth.py`:
`format_res(event, ref, travellerId=...)`. -/
def format_res (event : String) (r : Val) (payload : List (String × Val)) :
    Envelope :=
  { event := event, originalEvent := event, ref := r,
    error := none, message := none, extra := payload }

/-- Modelled from the spec: `format_res_err` of the missing
`opendogeserver/utilities.py`. Spec section 3: error envelope
`\x7b event, error, message, ref, ...extra \x7d`. The positional signature
`(event_name, error_kind, error_message, ref, flag, **extra)` with the
ref defaulting to the `False` sentinel is inferred from the six
consistent call sites (`server.py` lines 119 and 130, `auth.py` lines
61, 65, 74 and 91); the fifth boolean the dispatcher passes is not
described by the spec and does not affect the envelope here. Callers
that omit trailing arguments pass the defaults explicitly in this
embedding (`Val.fls`, `false`, `[]`). -/
def format_res_err (event : String) (err : String) (msg : Val) (r : Val)
    (_flag : Bool) (extra : List (String × Val)) : Envelope :=
  { event := event, originalEvent := event, ref := r,
    error := some err, message := some msg, extra := extra }

/-- Uppercase the first character of a word. -/
def capitalizeWord (s : String) : String :=
  match s.data with
  | [] => ""
  | c :: cs => String.mk (c.toUpper :: cs)

/-- Modelled from the spec: `to_camel_case` of the missing
`opendogeserver/utilities.py`. Spec section 4.1: the public event name
is derived from the handler identity by camel-case normalization, e.g.
`create_traveller` to `createTraveller`. -/
def to_camel_case (s : String) : String :=
  match s.splitOn "_" with
  | [] => ""
  | w :: ws => w ++ String.join (ws.map capitalizeWord)

/-- One step of camel-to-snake translation. -/
def snakeChar (c : Char) : List Char :=
  if c.isUpper then ['_', c.toLower] else [c]

/-- Modelled from the spec: `to_snake_case` of the missing
`opendogeserver/utilities.py`. Spec section 4.2 step 1: translate an
inbound field name to the handler parameter naming convention, e.g.
`travellerName` to `traveller_name`. The second (boolean) argument the
dispatcher passes is not described by the spec and is ignored here. -/
def to_snake_case (s : String) (_flag : Bool) : String :=
  String.mk (s.data.map snakeChar).flatten

/-- Declared parameters of a handler that are not bound in `args`. -/
def missing_args (args : List (String × Val)) (target_args : List String) :
    List String :=
  target_args.filter (fun a => !(hasKey args a))

/-- Modelled from the spec: `check_loop_data` of the missing
`opendogeserver/utilities.py`. Spec section 4.2 step 4: validate that
every declared parameter not satisfied by binding or injection is
present, and on failure produce a truthy value naming the missing
parameters (rendered into the `FormatError` reply). The dispatcher
treats its result as errored exactly when some parameter is missing. -/
def check_loop_data (args : List (String × Val)) (target_args : List String) :
    String :=
  String.intercalate ", " (missing_args args target_args)

/-- Outcome of running a registered handler coroutine: a returned reply
envelope, or an uncaught exception carrying a message. -/
inductive HandlerResult where
  | ok (e : Envelope)
  | exc (msg : String)

/-- A registered handler: its `__name__`, its `getfullargspec(...).args`
list, and its behaviour on the bound keyword arguments. -/
structure Handler where
  name : String
  args : List String
  run : List (String × Val) → HandlerResult

/-- The `Server` dataclass state of `server.py`: the event registry,
telemetry, per-IP request counters and the IP-to-account links. -/
structure Server where
  events : List (String × Handler)
  totalRequests : Nat
  ipRequests : List (String × Nat)
  wssAccounts : List (String × String)

/-- `Server.register` (`server.py` lines 62-66): derive the camel-case
event name and insert the callback only if the name is absent. -/
def Server.register (srv : Server) (cb : Handler) : Server :=
  let event := to_camel_case cb.name
  if hasKey srv.events event then srv
  else { srv with events := srv.events ++ [(event, cb)] }

/-- `server.py` lines 76-77: `data['ref'] = False` when the key is
absent (dict assignment appends the new key at the end). -/
def withRef (data : List (String × String)) : List (String × Val) :=
  let d := data.map (fun p => (p.1, Val.str p.2))
  if hasKey d "ref" then d else d ++ [("ref", Val.fls)]

/-- The correlation ref the dispatcher reads back as `data['ref']` after
the defaulting at lines 76-77. -/
def ref_of (data : List (String × String)) : Val :=
  match lookupStr data "ref" with
  | some s => Val.str s
  | none => Val.fls

/-- `server.py` lines 82-98: match inbound fields (post ref-defaulting)
against the handler's declared parameters by snake-case translation,
preserving the key `event` as-is, then inject the connection handle for
a declared `wss` parameter and the correlation ref for a declared `ref`
parameter. -/
def bind_step (target_args : List String) (acc : List (String × Val))
    (p : String × Val) : List (String × Val) :=
  let a := to_snake_case p.1 true
  if a ∈ target_args then
    dinsert acc (if p.1 = "event" then p.1 else a) p.2
  else acc

def bind_args (wssIp : String) (refV : Val) (data2 : List (String × Val))
    (target_args : List String) : List (String × Val) :=
  let base := data2.foldl (bind_step target_args) []
  let base := if "wss" ∈ target_args then
      dinsert base "wss" (Val.conn wssIp) else base
  if "ref" ∈ target_args then dinsert base "ref" refV else base

/-- Terminal outcome of `handle_event` for one frame: `None` returned
(frame dropped), a reply envelope returned, or `exit()` reached. -/
inductive DispatchResult where
  | noReply
  | reply (e : Envelope)
  | procExit
deriving DecidableEq, Repr

/-- Outcome of `handle_event` plus its observable side effects: whether
a diagnostic bug record was inserted into the persistence store and
whether the target handler was invoked. -/
structure DispatchOut where
  result : DispatchResult
  diagWritten : Bool
  invoked : Bool
deriving DecidableEq, Repr

/-- `server.py` lines 121-130: the `possibleEvents` help listing, built
by the indexed loop that appends a `|` between entries and none after
the last. -/
def joinEventsAux (acc : String) : List String → String
  | [] => acc
  | [e] => acc ++ e
  | e :: e2 :: rest => joinEventsAux (acc ++ e ++ "|") (e2 :: rest)

def joinEvents (l : List String) : String := joinEventsAux "" l

/-- The fixed message of the `EventNotFound` reply (`server.py` line
130), assembled without a literal apostrophe character. -/
def eventNotFoundMsg : String :=
  "This event doesn" ++ String.singleton (Char.ofNat 39) ++ "t exist."

/-- A Python value passed to `pymongo`'s `insert_one` as the document:
either a dict (a mapping, the only shape `insert_one` accepts) or — as
at `server.py` lines 113-114, where the braces hold comma-separated
values with no colon — a set. -/
inductive MongoDoc where
  | mapping (fields : List (String × String))
  | pySet (elems : List String)

/-- Whether `insert_one` succeeds on a document. `pymongo` rejects any
non-mapping document with a `TypeError` before reaching the store, so a
set always fails; for a well-formed mapping the outcome is the
collaborator boundary parameter `mdbOk` (spec section 6 lets the store
signal unavailability). -/
def insert_one_ok (mdbOk : Bool) (doc : MongoDoc) : Bool :=
  match doc with
  | .mapping _ => mdbOk
  | .pySet _ => false

/-- `Server.handle_event` (`server.py` lines 68-130). Parameters
`IS_LOCAL` (missing `constants.py`, modelled as the local/dev mode flag
per the spec) and `mdbOk` (whether the persistence collaborator would
accept a well-formed write). The steps, in source order:
lines 70-74 read `data['event']` and assert it non-empty, dropping the
frame otherwise; lines 76-77 default the ref; line 80 looks up the
registry, a miss being answered by the `EventNotFound` envelope of
lines 120-130; lines 82-101 bind arguments and check for missing ones,
line 104 answering `FormatError` (passing, positionally, `data['ref']`
in the message slot and the errored-arguments string in the ref slot);
line 106 awaits the handler; lines 107-119 turn an uncaught handler
exception into the generic `EventUnknownError` envelope — in production
after first inserting the bug report, whose document at lines 113-114
is the SET literal `\x7bf'bug\x7buuid4()\x7d', str(e)\x7d`, not a dict, so the
insert raises for every store state, the bare `except` catches it and
`exit()` runs. The `uuid4` tag of the set's first element is elided
here: no outcome depends on it, since any set is rejected. -/
def handle_event (IS_LOCAL : Bool) (mdbOk : Bool) (srv : Server)
    (wssIp : String) (data : List (String × String)) : DispatchOut :=
  match lookupStr data "event" with
  | none => ⟨.noReply, false, false⟩
  | some ev =>
    if ev.length = 0 then ⟨.noReply, false, false⟩
    else
      let data2 := withRef data
      let refV := (lookupStr data2 "ref").getD Val.fls
      match lookupStr srv.events ev with
      | none =>
          let possible_events := srv.events.map (fun p => p.1)
          let events_response := joinEvents possible_events
          ⟨.reply (format_res_err ev "EventNotFound"
              (Val.str eventNotFoundMsg) refV true
              [("possibleEvents", Val.str events_response)]),
            false, false⟩
      | some target =>
          let target_args := target.args
          let args := bind_args wssIp refV data2 target_args
          if (missing_args args target_args).isEmpty then
            match target.run args with
            | .ok res => ⟨.reply res, false, true⟩
            | .exc e =>
                if IS_LOCAL then
                  ⟨.reply (format_res_err ev "EventUnknownError"
                      (Val.str "Unknown internal server error.") refV true []),
                    false, true⟩
                else
                  if insert_one_ok mdbOk (MongoDoc.pySet ["bug", e]) then
                    ⟨.reply (format_res_err ev "EventUnknownError"
                        (Val.str "Unknown internal server error.") refV true []),
                      true, true⟩
                  else
                    ⟨.procExit, false, true⟩
          else
            ⟨.reply (format_res_err ev "FormatError" refV
                (Val.str (check_loop_data args target_args)) true []),
              false, false⟩

/-- A parsed JSON value, as produced by `json.loads`. -/
inductive Json where
  | str (s : String)
  | num (n : Int)
  | bool (b : Bool)
  | null
  | arr (elems : List Json)
  | obj (fields : List (String × Json))

/-- One raw inbound frame: either text that fails `json.loads`
(`JSONDecodeError`), or a parsed JSON value. -/
inductive Inbound where
  | malformed
  | json (j : Json)

/-- The assertion loop of `server.py` lines 162-168: every value of the
object must be a string (JSON object keys are strings already). Returns
the flat string map on success. -/
def strFields : List (String × Json) → Option (List (String × String))
  | [] => some []
  | (k, Json.str s) :: rest => (strFields rest).map (fun r => (k, s) :: r)
  | _ => none

/-- `server.py` lines 162-168: the frame must be a dict whose values are
all strings; anything else fails the assertions and is dropped. -/
def validShape : Json → Option (List (String × String))
  | Json.obj fs => strFields fs
  | _ => none

/-- Observable outcome of one iteration of the `serve` receive loop:
the updated server state, the envelope sent back (if any), whether
`handle_event` was invoked, and whether the process exited. -/
structure ServeOut where
  srv : Server
  sent : Option Envelope
  dispatched : Bool
  exited : Bool

/-- One iteration of the `while True` receive loop of `Server.serve`
(`server.py` lines 147-193), for a frame received from `ip`. In source
order: lines 152-153 skip the frame entirely (before any increment)
when the counter already exceeds `IP_RATELIMIT_MAX` (modelled as a
parameter since `constants.py` is missing); line 155 increments the
counter; lines 157-160 drop undecodable text; lines 162-170 drop frames
of the wrong shape; line 178 dispatches; lines 181-182 skip sending
when nothing was returned; lines 184-186 send the reply and bump
`total_requests`. The counter for `ip` is present on entry, guaranteed
by `on_connect`. -/
def serve_step (IS_LOCAL : Bool) (mdbOk : Bool) (IP_RATELIMIT_MAX : Nat)
    (srv : Server) (ip : String) (fr : Inbound) : ServeOut :=
  let count := (lookupStr srv.ipRequests ip).getD 0
  if count > IP_RATELIMIT_MAX then ⟨srv, none, false, false⟩
  else
    let srv1 := { srv with ipRequests := dinsert srv.ipRequests ip (count + 1) }
    match fr with
    | .malformed => ⟨srv1, none, false, false⟩
    | .json j =>
      match validShape j with
      | none => ⟨srv1, none, false, false⟩
      | some data =>
        let out := handle_event IS_LOCAL mdbOk srv1 ip data
        match out.result with
        | .noReply => ⟨srv1, none, true, false⟩
        | .procExit => ⟨srv1, none, true, true⟩
        | .reply env =>
            ⟨{ srv1 with totalRequests := srv1.totalRequests + 1 },
              some env, true, false⟩

/-- Iterated receive loop over a list of frames from one connection:
final server state and the number of frames forwarded to
`handle_event`. Stops when the process exits. -/
def serve_steps (IS_LOCAL : Bool) (mdbOk : Bool) (IP_RATELIMIT_MAX : Nat)
    (srv : Server) (ip : String) : List Inbound → Server × Nat
  | [] => (srv, 0)
  | fr :: rest =>
      let o := serve_step IS_LOCAL mdbOk IP_RATELIMIT_MAX srv ip fr
      if o.exited then (o.srv, if o.dispatched then 1 else 0)
      else
        let r := serve_steps IS_LOCAL mdbOk IP_RATELIMIT_MAX o.srv ip rest
        (r.1, (if o.dispatched then 1 else 0) + r.2)

/-- Connection setup, `server.py` lines 143-145: initialise the
identity's counter to 0 only when the identity is absent. -/
def on_connect (srv : Server) (ip : String) : Server :=
  if hasKey srv.ipRequests ip then srv
  else { srv with ipRequests := dinsert srv.ipRequests ip 0 }

/-- Disconnect handling, `server.py` lines 195-205: on
`ConnectionClosed`, the counter is kept, and the identity's account
link is deleted only on production servers (not `IS_LOCAL`). -/
def on_disconnect (IS_LOCAL : Bool) (srv : Server) (ip : String) : Server :=
  if hasKey srv.wssAccounts ip && !IS_LOCAL then
    { srv with wssAccounts := removeKey srv.wssAccounts ip }
  else srv

/-! ## The account handler (`auth.py`) -/

/-- The frozen `Traveller` dataclass of `classes.py`. -/
structure Traveller where
  traveller_id : String
  traveller_name : String
  traveller_email : String
  traveller_password : String
deriving DecidableEq, Repr

/-- One document of the production `users` collection, as inserted by
`create_traveller` (`auth.py` lines 102-103) and flattened back by
`get_users` (`auth.py` lines 134-148). -/
structure MdbUser where
  travellerName : String
  travellerEmail : String
  travellerPassword : String
deriving DecidableEq, Repr

/-- State visible to `AccountHandler`: the server (account links), the
local `travellers` dict of `__init__`, and the production store. -/
structure AuthState where
  srv : Server
  travellers : List (String × Traveller)
  mdbUsers : List (String × MdbUser)

/-- `auth.py` line 12-15 constants. -/
def MIN_ACCOUNT_NAME : Nat := 3
def MAX_ACCOUNT_NAME : Nat := 20
def MIN_PASS_LENGTH : Nat := 8
def MAX_PASS_LENGTH : Nat := 20

/-- Python `str.strip()`: drop whitespace from both ends. -/
def py_strip (s : String) : String :=
  String.mk (((s.data.dropWhile Char.isWhitespace).reverse.dropWhile
    Char.isWhitespace).reverse)

/-- `AccountHandler.check_account` (`auth.py` lines 110-119): whether
the IP is linked to an account. -/
def check_account (st : AuthState) (request_ip : String) : Bool :=
  hasKey st.srv.wssAccounts request_ip

/-- `string.ascii_letters + string.digits`, the alphabet `gen_id` draws
from. -/
def id_charset : List Char :=
  "abcdefghijklmnopqrstuvwxyzABCDEFGHIJKLMNOPQRSTUVWXYZ0123456789".data

/-- `AccountHandler.gen_id` (`auth.py` lines 121-132): 15 characters,
each chosen from the letters-and-digits alphabet. `random.choice` is a
collaborator boundary; the choices are supplied by `rand`. -/
def gen_id (rand : Nat → Nat) : String :=
  String.mk ((List.range 15).map
    (fun i => id_charset.getD (rand i % id_charset.length) 'a'))

/-- The duplicate-email scan of `auth.py` lines 77-88: over the local
`travellers` dict in local mode, over `get_users()` in production. -/
def email_taken (IS_LOCAL : Bool) (st : AuthState)
    (traveller_email : String) : Bool :=
  if IS_LOCAL then
    st.travellers.any (fun p => p.2.traveller_email = traveller_email)
  else
    st.mdbUsers.any (fun p => p.2.travellerEmail = traveller_email)

/-- `create_traveller` (`auth.py` lines 39-108). Collaborator
boundaries: `validate_email` returns `none` on a valid email and
`some errText` for the `EmailNotValidError` it raises otherwise;
`hashpw` is the bcrypt hash; `rand` drives `gen_id`. In source order:
line 60 rejects an already-linked IP with `AlreadyLoggedIn`; lines
64-65 bound the stripped name length; lines 68-71 validate the email,
answering `EmailInvalid` WITHOUT passing the ref (the source omits the
argument, so the envelope carries the default `False` sentinel); lines
73-74 bound the stripped password length; lines 77-91 reject a taken
email; lines 94-106 create the account in the mode's store and link the
IP; line 108 returns the success envelope. -/
def create_traveller (IS_LOCAL : Bool)
    (validate_email : String → Option String) (hashpw : String → String)
    (rand : Nat → Nat) (st : AuthState) (wssIp : String) (event : String)
    (r : Val) (traveller_name traveller_email traveller_password : String) :
    AuthState × Envelope :=
  if check_account st wssIp then
    (st, format_res_err event "AlreadyLoggedIn"
      (Val.str "You are currently logged in. Logout and try again.") r
      false [])
  else if !(decide (MIN_ACCOUNT_NAME ≤ (py_strip traveller_name).length) &&
            decide ((py_strip traveller_name).length ≤ MAX_ACCOUNT_NAME)) then
    (st, format_res_err event "NameExceedsLimit"
      (Val.str ("Traveller name must be between " ++ toString MIN_ACCOUNT_NAME
        ++ " and " ++ toString MAX_ACCOUNT_NAME ++ " characters long.")) r
      false [])
  else
    match validate_email traveller_email with
    | some e =>
        (st, format_res_err event "EmailInvalid" (Val.str e) Val.fls false [])
    | none =>
      if !(decide (MIN_PASS_LENGTH ≤ (py_strip traveller_password).length) &&
           decide ((py_strip traveller_password).length ≤ MAX_PASS_LENGTH)) then
        (st, format_res_err event "PasswordExceedsLimit"
          (Val.str ("Traveller password must be between "
            ++ toString MIN_PASS_LENGTH ++ " and " ++ toString MAX_PASS_LENGTH
            ++ " characters.")) r false [])
      else if email_taken IS_LOCAL st traveller_email then
        (st, format_res_err event "EmailInUse"
          (Val.str "This email is already in use by another account.") r
          false [])
      else
        let traveller_id := gen_id rand
        let hashed_password := hashpw traveller_password
        let st1 :=
          if IS_LOCAL then
            { st with travellers :=
                (dinsert st.travellers traveller_id
                  (Traveller.mk traveller_id traveller_name traveller_email
                    hashed_password)) }
          else
            { st with mdbUsers :=
                (st.mdbUsers ++
                  [(traveller_id,
                    MdbUser.mk traveller_name traveller_email
                      hashed_password)]) }
        let st2 := { st1 with srv := { st1.srv with
            wssAccounts := dinsert st1.srv.wssAccounts wssIp traveller_id } }
        (st2, format_res event r [("travellerId", Val.str traveller_id)])

/-! ## Input classes and concrete fixtures -/

/-- The class of inbound frames rejected by the wire codec / shape
checks: undecodable text, a non-object JSON value, an object with a
non-string value, and shape-valid objects whose `event` key is missing
or maps to the empty string. -/
def badFrame (fr : Inbound) : Bool :=
  match fr with
  | .malformed => true
  | .json j =>
    match validShape j with
    | none => true
    | some data =>
      match lookupStr data "event" with
      | none => true
      | some ev => ev.length == 0

/-- A handler with only injected parameters, replying with its ref. -/
def hPing : Handler :=
  ⟨"ping", ["wss", "event", "ref"],
    fun args => .ok (format_res "ping" ((lookupStr args "ref").getD Val.fls) [])⟩

/-- A handler whose body raises an uncaught exception. -/
def hBoom : Handler :=
  ⟨"boom", ["wss", "event", "ref"], fun _ => .exc "division by zero"⟩

/-- The `create_traveller` handler descriptor as the dispatcher sees it:
its name and its `getfullargspec` parameter list (`auth.py` line 40). -/
def hCT : Handler :=
  ⟨"create_traveller",
    ["wss", "event", "ref", "traveller_name", "traveller_email",
      "traveller_password"],
    fun _ => .ok (format_res "createTraveller" Val.fls [])⟩

/-- A server whose counter for `1.2.3.4` already exceeds a threshold of
10. -/
def srvOver : Server := ⟨[("ping", hPing)], 0, [("1.2.3.4", 11)], []⟩

/-- A shape-valid frame naming the registered `ping` event. -/
def framePing : Inbound := .json (.obj [("event", .str "ping")])

/-- A server with only `create_traveller` registered (the registry that
`register` builds for it). -/
def srvCT : Server := Server.mk [("createTraveller", hCT)] 0 [] []

/-- A server with only the raising handler registered. -/
def srvBoom : Server := Server.mk [("boom", hBoom)] 0 [] []

/-- A server with two registered events. -/
def srvTwo : Server :=
  Server.mk [("ping", hPing), ("createTraveller", hCT)] 0 [] []

/-- A fresh account-handler state: nothing stored, nobody linked. -/
def stFresh : AuthState := ⟨Server.mk [] 0 [] [], [], []⟩

/-- A server with one connected identity that has a request history and
a linked account. -/
def srvConn : Server :=
  Server.mk [] 0 [("1.2.3.4", 5)] [("1.2.3.4", "acct123")]

/-- The `FormatError` reply the dispatcher produces for a
`createTraveller` message that carries `ref = "r1"` and none of the
traveller parameters. -/
def formatErrorReplyR1 : Envelope :=
  { event := "createTraveller", originalEvent := "createTraveller",
    ref := Val.str "traveller_name, traveller_email, traveller_password",
    error := some "FormatError", message := some (Val.str "r1"),
    extra := [] }

/-! ## Association-list lemmas -/

theorem lookupStr_cons {α : Type} (k2 : String) (v : α)
    (rest : List (String × α)) (k : String) :
    lookupStr ((k2, v) :: rest) k = if k2 = k then some v else lookupStr rest k :=
  rfl

theorem lookupStr_append {α : Type} (l1 l2 : List (String × α)) (k : String) :
    lookupStr (l1 ++ l2) k = (lookupStr l1 k).or (lookupStr l2 k) := by
  induction l1 with
  | nil => simp [lookupStr]
  | cons p rest ih =>
    obtain ⟨k2, v⟩ := p
    by_cases h : k2 = k <;> simp [lookupStr_cons, h, ih]

theorem lookupStr_map_val {α β : Type} (f : α → β) (l : List (String × α))
    (k : String) :
    lookupStr (l.map (fun p => (p.1, f p.2))) k = (lookupStr l k).map f := by
  induction l with
  | nil => rfl
  | cons p rest ih =>
    obtain ⟨k2, v⟩ := p
    by_cases h : k2 = k <;> simp [lookupStr_cons, h, ih]

theorem lookupStr_dinsert {α : Type} (l : List (String × α)) (k k2 : String)
    (v : α) :
    lookupStr (dinsert l k v) k2 = if k = k2 then some v else lookupStr l k2 := by
  induction l with
  | nil => by_cases h : k = k2 <;> simp [dinsert, lookupStr_cons, h]
  | cons p rest ih =>
    obtain ⟨k3, v3⟩ := p
    by_cases h3 : k3 = k
    · subst h3
      by_cases h : k3 = k2 <;> simp [dinsert, lookupStr_cons, h]
    · by_cases h2 : k3 = k2
      · subst h2
        have hk : ¬ k = k3 := fun hh => h3 hh.symm
        simp [dinsert, h3, lookupStr_cons, hk]
      · simp [dinsert, h3, lookupStr_cons, h2, ih]

theorem lookup_eq_none_of_not_hasKey {α : Type} (l : List (String × α))
    (k : String) (h : hasKey l k = false) : lookupStr l k = none := by
  cases h2 : lookupStr l k with
  | none => rfl
  | some v => simp [hasKey, h2] at h

theorem lookupStr_removeKey_self {α : Type} (l : List (String × α))
    (k : String) : lookupStr (removeKey l k) k = none := by
  induction l with
  | nil => rfl
  | cons p rest ih =>
    obtain ⟨k2, v⟩ := p
    by_cases h : k2 = k
    · simpa [removeKey, List.filter_cons, h] using ih
    · simpa [removeKey, List.filter_cons, h, lookupStr_cons] using ih

theorem refV_eq_ref_of (data : List (String × String)) :
    (lookupStr (withRef data) "ref").getD Val.fls = ref_of data := by
  simp only [withRef, ref_of]
  cases h : lookupStr data "ref" with
  | some s =>
      have hk : hasKey (data.map (fun p => (p.1, Val.str p.2))) "ref" = true := by
        simp [hasKey, lookupStr_map_val, h]
      simp [hk, lookupStr_map_val, h]
  | none =>
      have hk : hasKey (data.map (fun p => (p.1, Val.str p.2))) "ref" = false := by
        simp [hasKey, lookupStr_map_val, h]
      simp [hk, lookupStr_append, lookupStr_map_val, h, lookupStr_cons]

theorem go_step (acc s a : String) (as : List String) :
    String.intercalate.go acc s (a :: as) =
      String.intercalate.go (acc ++ s ++ a) s as := rfl

theorem go_append (s : String) (as : List String) : ∀ (a1 a2 : String),
    String.intercalate.go (a1 ++ a2) s as = a1 ++ String.intercalate.go a2 s as := by
  induction as with
  | nil => intro a1 a2; rfl
  | cons b as2 ih =>
    intro a1 a2
    rw [go_step, go_step a2 s b as2]
    simp only [String.append_assoc]
    exact ih a1 (a2 ++ (s ++ b))

theorem go_cons (s : String) (as : List String) (acc a : String) :
    String.intercalate.go acc s (a :: as) =
      acc ++ s ++ String.intercalate.go a s as := by
  rw [go_step, go_append]

theorem joinEventsAux_eq (l : List String) : ∀ (acc : String),
    joinEventsAux acc l = acc ++ String.intercalate "|" l := by
  induction l with
  | nil => intro acc; simp [joinEventsAux, String.intercalate]
  | cons e rest ih =>
    intro acc
    cases rest with
    | nil =>
        show acc ++ e = acc ++ String.intercalate "|" [e]
        rfl
    | cons e2 rest2 =>
      show joinEventsAux (acc ++ e ++ "|") (e2 :: rest2) = _
      rw [ih (acc ++ e ++ "|")]
      show _ = acc ++ String.intercalate.go e "|" (e2 :: rest2)
      rw [go_cons]
      simp [String.append_assoc, String.intercalate]

theorem joinEvents_eq_intercalate (l : List String) :
    joinEvents l = String.intercalate "|" l := by
  simpa [String.empty_append] using joinEventsAux_eq l ""

/-- C6: a valid message naming an unregistered event is answered by an
`EventNotFound` error envelope whose `possibleEvents` field is every
currently-registered event name (each exactly once, the key list having
no duplicates) joined by the `|` delimiter with no trailing delimiter. -/
theorem event_not_found_lists_registry (IS_LOCAL mdbOk : Bool) (srv : Server)
    (ip : String) (data : List (String × String)) (ev : String)
    (hev : lookupStr data "event" = some ev) (hne : ev.length ≠ 0)
    (hmiss : lookupStr srv.events ev = none)
    (hnd : (srv.events.map (fun p => p.1)).Nodup) :
    handle_event IS_LOCAL mdbOk srv ip data =
      ⟨.reply (format_res_err ev "EventNotFound" (Val.str eventNotFoundMsg)
        (ref_of data) true
        [("possibleEvents",
          Val.str (String.intercalate "|" (srv.events.map (fun p => p.1))))]),
        false, false⟩ ∧
    (srv.events.map (fun p => p.1)).Nodup := by
  refine ⟨?_, hnd⟩
  simp only [handle_event, hev, hmiss, refV_eq_ref_of, if_neg hne,
    joinEvents_eq_intercalate]

/-- Witness for `event_not_found_lists_registry` at a concrete server
and message. -/
theorem event_not_found_lists_registry_witness :
    lookupStr [("event", "nosuch"), ("ref", "r1")] "event" = some "nosuch" ∧
    "nosuch".length ≠ 0 ∧
    lookupStr srvTwo.events "nosuch" = none ∧
    (srvTwo.events.map (fun p => p.1)).Nodup ∧
    (handle_event false true srvTwo "1.2.3.4"
        [("event", "nosuch"), ("ref", "r1")] =
      ⟨.reply (format_res_err "nosuch" "EventNotFound"
        (Val.str eventNotFoundMsg) (ref_of [("event", "nosuch"), ("ref", "r1")])
        true
        [("possibleEvents",
          Val.str (String.intercalate "|" (srvTwo.events.map (fun p => p.1))))]),
        false, false⟩ ∧
      (srvTwo.events.map (fun p => p.1)).Nodup) :=
  ⟨rfl, by decide, rfl, by simp [srvTwo, hPing, hCT],
    event_not_found_lists_registry false true srvTwo "1.2.3.4"
      [("event", "nosuch"), ("ref", "r1")] "nosuch" rfl (by decide) rfl
      (by simp [srvTwo, hPing, hCT])⟩

theorem mem_of_hasKey_dinsert {α : Type} {l : List (String × α)}
    {k k2 : String} {v : α} (h : hasKey (dinsert l k v) k2 = true) :
    k = k2 ∨ hasKey l k2 = true := by
  by_cases he : k = k2
  · exact Or.inl he
  · right; simpa [hasKey, lookupStr_dinsert, he] using h

theorem to_snake_case_event : to_snake_case "event" true = "event" := rfl

theorem bind_fold_keys (targs : List String) (d : List (String × Val)) :
    ∀ acc, (∀ k, hasKey acc k = true → k ∈ targs) →
      ∀ k, hasKey (d.foldl (bind_step targs) acc) k = true → k ∈ targs := by
  induction d with
  | nil => intro acc hacc k hk; exact hacc k hk
  | cons p rest ih =>
    intro acc hacc k
    rw [List.foldl_cons]
    apply ih
    intro k2 hk2
    unfold bind_step at hk2
    by_cases hmem : to_snake_case p.1 true ∈ targs
    · rw [if_pos hmem] at hk2
      rcases mem_of_hasKey_dinsert hk2 with he | hacc2
      · by_cases hevt : p.1 = "event"
        · rw [if_pos hevt] at he
          subst he
          rw [hevt] at hmem ⊢
          rwa [to_snake_case_event] at hmem
        · rw [if_neg hevt] at he
          subst he
          exact hmem
      · exact hacc k2 hacc2
    · rw [if_neg hmem] at hk2
      exact hacc k2 hk2

/-- Every key the argument binder passes to a handler is one of the
handler's declared parameter names: unknown message fields are dropped,
never forwarded. -/
theorem bind_args_keys (wssIp : String) (refV : Val)
    (data2 : List (String × Val)) (targs : List String) :
    ∀ k, hasKey (bind_args wssIp refV data2 targs) k = true → k ∈ targs := by
  intro k hk
  unfold bind_args at hk
  have hbase := bind_fold_keys targs data2 []
    (by intro k2 hk2; simp [hasKey, lookupStr] at hk2)
  by_cases hw : "wss" ∈ targs <;> by_cases hr : "ref" ∈ targs <;>
    simp only [if_pos, if_neg, hw, hr, if_true, if_false] at hk
  · rcases mem_of_hasKey_dinsert hk with he | hk2
    · exact he ▸ hr
    · rcases mem_of_hasKey_dinsert hk2 with he | hk3
      · exact he ▸ hw
      · exact hbase k hk3
  · rcases mem_of_hasKey_dinsert hk with he | hk2
    · exact he ▸ hw
    · exact hbase k hk2
  · rcases mem_of_hasKey_dinsert hk with he | hk2
    · exact he ▸ hr
    · exact hbase k hk2
  · exact hbase k hk

/-- C7: a valid message naming a registered event but leaving declared
parameters unbound is answered, without invoking the handler, by a
`FormatError` error envelope carrying the names of the missing
parameters; and the binder never forwards a message field that is not a
declared parameter of the handler. -/
theorem missing_params_format_error (IS_LOCAL mdbOk : Bool) (srv : Server)
    (ip : String) (data : List (String × String)) (ev : String)
    (target : Handler)
    (hev : lookupStr data "event" = some ev) (hne : ev.length ≠ 0)
    (ht : lookupStr srv.events ev = some target)
    (hmiss : (missing_args
      (bind_args ip (ref_of data) (withRef data) target.args)
      target.args).isEmpty = false) :
    handle_event IS_LOCAL mdbOk srv ip data =
      ⟨.reply (format_res_err ev "FormatError" (ref_of data)
        (Val.str (check_loop_data
          (bind_args ip (ref_of data) (withRef data) target.args)
          target.args)) true []),
        false, false⟩ ∧
    (∀ k, hasKey (bind_args ip (ref_of data) (withRef data) target.args) k =
      true → k ∈ target.args) := by
  refine ⟨?_, bind_args_keys ip (ref_of data) (withRef data) target.args⟩
  simp [handle_event, hev, ht, refV_eq_ref_of, hne, hmiss]

/-- Witness for `missing_params_format_error`: `createTraveller` with
all three traveller parameters omitted. -/
theorem missing_params_format_error_witness :
    lookupStr [("event", "createTraveller"), ("ref", "r1")] "event" =
      some "createTraveller" ∧
    "createTraveller".length ≠ 0 ∧
    lookupStr srvCT.events "createTraveller" = some hCT ∧
    (missing_args
      (bind_args "9.9.9.9" (ref_of [("event", "createTraveller"), ("ref", "r1")])
        (withRef [("event", "createTraveller"), ("ref", "r1")]) hCT.args)
      hCT.args).isEmpty = false ∧
    (handle_event false true srvCT "9.9.9.9"
        [("event", "createTraveller"), ("ref", "r1")] =
      ⟨.reply (format_res_err "createTraveller" "FormatError"
        (ref_of [("event", "createTraveller"), ("ref", "r1")])
        (Val.str (check_loop_data
          (bind_args "9.9.9.9"
            (ref_of [("event", "createTraveller"), ("ref", "r1")])
            (withRef [("event", "createTraveller"), ("ref", "r1")]) hCT.args)
          hCT.args)) true []),
        false, false⟩ ∧
      (∀ k, hasKey
        (bind_args "9.9.9.9"
          (ref_of [("event", "createTraveller"), ("ref", "r1")])
          (withRef [("event", "createTraveller"), ("ref", "r1")]) hCT.args) k =
        true → k ∈ hCT.args)) :=
  ⟨rfl, by decide, rfl, by decide,
    missing_params_format_error false true srvCT "9.9.9.9"
      [("event", "createTraveller"), ("ref", "r1")] "createTraveller" hCT
      rfl (by decide) rfl (by decide)⟩

/-- C1 fails on the code: the bug-report document at `server.py` lines
113-114 is a set literal (comma-separated braces, no colon), which
`pymongo`'s `insert_one` rejects unconditionally, so in production
every uncaught handler fault takes the bare `except` and `exit()`: the
process terminates with no `EventUnknownError` reply sent and no
diagnostic record written, whatever the store's own state (`mdbOk`
arbitrary) — the claim's write-succeeds world is unreachable. -/
theorem uncaught_fault_production_always_exits (mdbOk : Bool) (srv : Server)
    (ip : String) (data : List (String × String)) (ev : String)
    (target : Handler) (m : String)
    (hev : lookupStr data "event" = some ev) (hne : ev.length ≠ 0)
    (ht : lookupStr srv.events ev = some target)
    (hbound : (missing_args
      (bind_args ip (ref_of data) (withRef data) target.args)
      target.args).isEmpty = true)
    (hrun : target.run (bind_args ip (ref_of data) (withRef data) target.args)
      = .exc m) :
    handle_event false mdbOk srv ip data = ⟨.procExit, false, true⟩ := by
  simp [handle_event, hev, ht, refV_eq_ref_of, hne, hbound, hrun, insert_one_ok]

/-- Witness for `uncaught_fault_production_always_exits` at a concrete
raising handler, with a store that would accept a well-formed write
(`mdbOk = true`): the fault still ends in `exit()` with no reply and no
record. -/
theorem uncaught_fault_production_always_exits_witness :
    lookupStr [("event", "boom"), ("ref", "r1")] "event" = some "boom" ∧
    "boom".length ≠ 0 ∧
    lookupStr srvBoom.events "boom" = some hBoom ∧
    (missing_args
      (bind_args "1.2.3.4" (ref_of [("event", "boom"), ("ref", "r1")])
        (withRef [("event", "boom"), ("ref", "r1")]) hBoom.args)
      hBoom.args).isEmpty = true ∧
    hBoom.run (bind_args "1.2.3.4" (ref_of [("event", "boom"), ("ref", "r1")])
      (withRef [("event", "boom"), ("ref", "r1")]) hBoom.args) =
      .exc "division by zero" ∧
    handle_event false true srvBoom "1.2.3.4" [("event", "boom"), ("ref", "r1")] =
      ⟨.procExit, false, true⟩ :=
  ⟨rfl, by decide, rfl, by decide, rfl,
    uncaught_fault_production_always_exits true srvBoom "1.2.3.4"
      [("event", "boom"), ("ref", "r1")] "boom" hBoom "division by zero"
      rfl (by decide) rfl (by decide) rfl⟩

/-- C10: in local/dev mode an uncaught handler fault only prints: no
diagnostic record is written, the process never exits whatever the
store would have done, and the client still receives the generic
`EventUnknownError` envelope. -/
theorem uncaught_fault_local_mode (mdbOk : Bool) (srv : Server) (ip : String)
    (data : List (String × String)) (ev : String) (target : Handler)
    (m : String)
    (hev : lookupStr data "event" = some ev) (hne : ev.length ≠ 0)
    (ht : lookupStr srv.events ev = some target)
    (hbound : (missing_args
      (bind_args ip (ref_of data) (withRef data) target.args)
      target.args).isEmpty = true)
    (hrun : target.run (bind_args ip (ref_of data) (withRef data) target.args)
      = .exc m) :
    handle_event true mdbOk srv ip data =
      ⟨.reply (format_res_err ev "EventUnknownError"
        (Val.str "Unknown internal server error.") (ref_of data) true []),
        false, true⟩ := by
  simp [handle_event, hev, ht, refV_eq_ref_of, hne, hbound, hrun]

/-- Witness for `uncaught_fault_local_mode`, with a store that would
reject the write (and is never consulted). -/
theorem uncaught_fault_local_mode_witness :
    lookupStr [("event", "boom")] "event" = some "boom" ∧
    "boom".length ≠ 0 ∧
    lookupStr srvBoom.events "boom" = some hBoom ∧
    (missing_args
      (bind_args "1.2.3.4" (ref_of [("event", "boom")])
        (withRef [("event", "boom")]) hBoom.args) hBoom.args).isEmpty = true ∧
    hBoom.run (bind_args "1.2.3.4" (ref_of [("event", "boom")])
      (withRef [("event", "boom")]) hBoom.args) = .exc "division by zero" ∧
    handle_event true false srvBoom "1.2.3.4" [("event", "boom")] =
      ⟨.reply (format_res_err "boom" "EventUnknownError"
        (Val.str "Unknown internal server error.") (ref_of [("event", "boom")])
        true []),
        false, true⟩ :=
  ⟨rfl, by decide, rfl, by decide, rfl,
    uncaught_fault_local_mode false srvBoom "1.2.3.4" [("event", "boom")]
      "boom" hBoom "division by zero" rfl (by decide) rfl (by decide) rfl⟩

/-- C3 fails on the code: at `server.py` line 104 the dispatcher passes
`data['ref']` in the message position and the errored-arguments string
in the ref position of `format_res_err`, so the `FormatError` reply for
a message carrying `ref = "r1"` comes back with the missing-parameter
listing as its `ref` and `"r1"` demoted to the `message` field — the
inbound ref is not echoed in the reply's ref field. -/
theorem format_error_ref_not_echoed :
    handle_event false true srvCT "9.9.9.9"
        [("event", "createTraveller"), ("ref", "r1")] =
      ⟨.reply formatErrorReplyR1, false, false⟩ ∧
    ∀ e : Envelope,
      (handle_event false true srvCT "9.9.9.9"
        [("event", "createTraveller"), ("ref", "r1")]).result = .reply e →
      ¬ e.ref = Val.str "r1" := by
  have h2 : handle_event false true srvCT "9.9.9.9"
      [("event", "createTraveller"), ("ref", "r1")] =
      ⟨.reply formatErrorReplyR1, false, false⟩ := by decide
  refine ⟨h2, ?_⟩
  intro e he
  rw [h2] at he
  have h3 : formatErrorReplyR1 = e := by injection he
  rw [← h3]
  decide

theorem register_of_hasKey (srv : Server) (cb : Handler)
    (h : hasKey srv.events (to_camel_case cb.name) = true) :
    srv.register cb = srv := by
  simp [Server.register, h]

/-- C4: registering a handler and looking up its derived camel-case name
returns that handler, and a second registration with a colliding
derived name is ignored without error: the registry is unchanged and
the first handler stays in place. -/
theorem register_lookup_first_wins (srv : Server) (h : Handler)
    (habs : hasKey srv.events (to_camel_case h.name) = false) :
    lookupStr (srv.register h).events (to_camel_case h.name) = some h ∧
    ∀ h2 : Handler, to_camel_case h2.name = to_camel_case h.name →
      ((srv.register h).register h2).events = (srv.register h).events ∧
      lookupStr ((srv.register h).register h2).events (to_camel_case h.name) =
        some h := by
  have hn : lookupStr (srv.register h).events (to_camel_case h.name) = some h := by
    simp [Server.register, habs, lookupStr_append,
      lookup_eq_none_of_not_hasKey _ _ habs, lookupStr_cons]
  refine ⟨hn, ?_⟩
  intro h2 hname
  have hk : hasKey (srv.register h).events (to_camel_case h2.name) = true := by
    rw [hname]
    simp [hasKey, hn]
  have hsame : ((srv.register h).register h2).events = (srv.register h).events := by
    rw [register_of_hasKey _ _ hk]
  exact ⟨hsame, by rw [hsame]; exact hn⟩

/-- Witness for `register_lookup_first_wins`: registering the
`create_traveller` handler twice on an empty registry. -/
theorem register_lookup_first_wins_witness :
    hasKey (Server.mk [] 0 [] []).events (to_camel_case hCT.name) = false ∧
    lookupStr ((Server.mk [] 0 [] []).register hCT).events
      (to_camel_case hCT.name) = some hCT ∧
    (((Server.mk [] 0 [] []).register hCT).register hCT).events =
      ((Server.mk [] 0 [] []).register hCT).events ∧
    lookupStr (((Server.mk [] 0 [] []).register hCT).register hCT).events
      (to_camel_case hCT.name) = some hCT :=
  ⟨rfl, (register_lookup_first_wins (Server.mk [] 0 [] []) hCT rfl).1,
    ((register_lookup_first_wins (Server.mk [] 0 [] []) hCT rfl).2 hCT rfl).1,
    ((register_lookup_first_wins (Server.mk [] 0 [] []) hCT rfl).2 hCT rfl).2⟩

theorem handle_event_no_event_key (IS_LOCAL mdbOk : Bool) (srv : Server)
    (ip : String) (data : List (String × String))
    (h : lookupStr data "event" = none) :
    handle_event IS_LOCAL mdbOk srv ip data = ⟨.noReply, false, false⟩ := by
  simp [handle_event, h]

theorem handle_event_empty_event (IS_LOCAL mdbOk : Bool) (srv : Server)
    (ip : String) (data : List (String × String)) (ev : String)
    (hev : lookupStr data "event" = some ev) (h : ev.length = 0) :
    handle_event IS_LOCAL mdbOk srv ip data = ⟨.noReply, false, false⟩ := by
  simp [handle_event, hev, h]

/-- C5: a frame that is undecodable, not a JSON object, an object with a
non-string value, or a shape-valid object whose `event` is missing or
empty, is silently dropped: the receive loop sends nothing back for it
(and does not exit). -/
theorem bad_frame_sends_nothing (IS_LOCAL mdbOk : Bool) (limit : Nat)
    (srv : Server) (ip : String) (fr : Inbound) (h : badFrame fr = true) :
    (serve_step IS_LOCAL mdbOk limit srv ip fr).sent = none ∧
    (serve_step IS_LOCAL mdbOk limit srv ip fr).exited = false := by
  unfold serve_step
  by_cases hc : (lookupStr srv.ipRequests ip).getD 0 > limit
  · simp [hc]
  · rw [if_neg hc]
    cases fr with
    | malformed => exact ⟨rfl, rfl⟩
    | json j =>
      unfold badFrame at h
      cases hv : validShape j with
      | none => simp [hv]
      | some data =>
        simp only [hv] at h
        cases hl : lookupStr data "event" with
        | none => simp [hv, handle_event, hl]
        | some ev =>
            rw [hl] at h
            have hlen : ev.length = 0 := by simpa using h
            simp [hv, handle_event, hl, hlen]

/-- Witness for `bad_frame_sends_nothing` at an undecodable frame. -/
theorem bad_frame_sends_nothing_witness :
    badFrame Inbound.malformed = true ∧
    (serve_step false true 10 srvConn "1.2.3.4" Inbound.malformed).sent = none ∧
    (serve_step false true 10 srvConn "1.2.3.4" Inbound.malformed).exited = false :=
  ⟨rfl,
    (bad_frame_sends_nothing false true 10 srvConn "1.2.3.4" Inbound.malformed rfl).1,
    (bad_frame_sends_nothing false true 10 srvConn "1.2.3.4" Inbound.malformed rfl).2⟩

theorem serve_step_over (IS_LOCAL mdbOk : Bool) (limit : Nat) (srv : Server)
    (ip : String) (fr : Inbound)
    (hc : (lookupStr srv.ipRequests ip).getD 0 > limit) :
    serve_step IS_LOCAL mdbOk limit srv ip fr = ⟨srv, none, false, false⟩ := by
  simp [serve_step, hc]

theorem serve_step_ipRequests (IS_LOCAL mdbOk : Bool) (limit : Nat)
    (srv : Server) (ip : String) (fr : Inbound) :
    (serve_step IS_LOCAL mdbOk limit srv ip fr).srv.ipRequests =
      if (lookupStr srv.ipRequests ip).getD 0 > limit then srv.ipRequests
      else dinsert srv.ipRequests ip ((lookupStr srv.ipRequests ip).getD 0 + 1) := by
  by_cases hc : (lookupStr srv.ipRequests ip).getD 0 > limit
  · rw [serve_step_over IS_LOCAL mdbOk limit srv ip fr hc, if_pos hc]
  · rw [if_neg hc]
    unfold serve_step
    rw [if_neg hc]
    cases fr with
    | malformed => rfl
    | json j =>
      cases hv : validShape j with
      | none => simp [hv]
      | some data =>
        simp only [hv]
        split <;> rfl

/-- C2 as stated is false on the code: at `server.py` lines 152-155 the
threshold check runs before the increment and `continue` skips the
increment, so a connection whose counter already exceeds the threshold
receives a further valid frame without its counter increasing at all
(here: it stays 11 instead of the claimed 12); the dispatcher is indeed
not invoked. -/
theorem throttled_counter_counterexample :
    (serve_step false true 10 srvOver "1.2.3.4" framePing).dispatched = false ∧
    lookupStr (serve_step false true 10 srvOver "1.2.3.4" framePing).srv.ipRequests
      "1.2.3.4" = some 11 ∧
    ¬ lookupStr (serve_step false true 10 srvOver "1.2.3.4" framePing).srv.ipRequests
      "1.2.3.4" = some 12 := by
  refine ⟨by decide, by decide, by decide⟩

/-- C2 amended: once an identity's counter exceeds the threshold, any
further frames leave the whole server state (hence the counter)
unchanged and the dispatcher is invoked 0 times; while at or below the
threshold every received frame, valid or not, increments the counter by
exactly one; and the counter never decreases. -/
theorem throttled_counter_amended (IS_LOCAL mdbOk : Bool) (limit : Nat)
    (srv : Server) (ip : String) :
    (∀ frames : List Inbound,
      (lookupStr srv.ipRequests ip).getD 0 > limit →
        (serve_steps IS_LOCAL mdbOk limit srv ip frames).1 = srv ∧
        (serve_steps IS_LOCAL mdbOk limit srv ip frames).2 = 0) ∧
    (∀ fr : Inbound,
      ¬ (lookupStr srv.ipRequests ip).getD 0 > limit →
        lookupStr (serve_step IS_LOCAL mdbOk limit srv ip fr).srv.ipRequests ip =
          some ((lookupStr srv.ipRequests ip).getD 0 + 1)) ∧
    (∀ fr : Inbound,
      (lookupStr srv.ipRequests ip).getD 0 ≤
        (lookupStr (serve_step IS_LOCAL mdbOk limit srv ip fr).srv.ipRequests
          ip).getD 0) := by
  refine ⟨?_, ?_, ?_⟩
  · intro frames
    induction frames with
    | nil => intro hc; exact ⟨rfl, rfl⟩
    | cons fr rest ih =>
      intro hc
      obtain ⟨ih1, ih2⟩ := ih hc
      simp [serve_steps, serve_step_over IS_LOCAL mdbOk limit srv ip fr hc,
        ih1, ih2]
  · intro fr hc
    rw [serve_step_ipRequests, if_neg hc, lookupStr_dinsert]
    simp
  · intro fr
    by_cases hc : (lookupStr srv.ipRequests ip).getD 0 > limit
    · rw [serve_step_ipRequests, if_pos hc]
    · rw [serve_step_ipRequests, if_neg hc, lookupStr_dinsert]
      simp [Nat.le_succ]

/-- Witness for `throttled_counter_amended`: a throttled identity
receiving two valid frames, and an unthrottled identity receiving an
undecodable frame. -/
theorem throttled_counter_amended_witness :
    (lookupStr srvOver.ipRequests "1.2.3.4").getD 0 > 10 ∧
    (serve_steps false true 10 srvOver "1.2.3.4" [framePing, framePing]).1 =
      srvOver ∧
    (serve_steps false true 10 srvOver "1.2.3.4" [framePing, framePing]).2 = 0 ∧
    ¬ (lookupStr srvConn.ipRequests "1.2.3.4").getD 0 > 10 ∧
    lookupStr (serve_step false true 10 srvConn "1.2.3.4"
      Inbound.malformed).srv.ipRequests "1.2.3.4" = some 6 ∧
    (lookupStr srvConn.ipRequests "1.2.3.4").getD 0 ≤
      (lookupStr (serve_step false true 10 srvConn "1.2.3.4"
        Inbound.malformed).srv.ipRequests "1.2.3.4").getD 0 :=
  ⟨by decide,
    ((throttled_counter_amended false true 10 srvOver "1.2.3.4").1
      [framePing, framePing] (by decide)).1,
    ((throttled_counter_amended false true 10 srvOver "1.2.3.4").1
      [framePing, framePing] (by decide)).2,
    by decide,
    (throttled_counter_amended false true 10 srvConn "1.2.3.4").2.1
      Inbound.malformed (by decide),
    (throttled_counter_amended false true 10 srvConn "1.2.3.4").2.2
      Inbound.malformed⟩

theorem on_disconnect_ipRequests (IS_LOCAL : Bool) (srv : Server)
    (ip : String) : (on_disconnect IS_LOCAL srv ip).ipRequests = srv.ipRequests := by
  unfold on_disconnect
  by_cases h : (hasKey srv.wssAccounts ip && !IS_LOCAL) = true
  · simp [h]
  · simp [eq_false_of_ne_true h]

/-- C8: a disconnect followed by a reconnect of the same identity leaves
its rate-limit counter untouched (connect only initialises an absent
counter), and the disconnect removes the identity's account link on
production servers but preserves it in the in-memory local mode. -/
theorem reconnect_counter_and_link (IS_LOCAL : Bool) (srv : Server)
    (ip : String) (hip : hasKey srv.ipRequests ip = true) :
    lookupStr (on_connect (on_disconnect IS_LOCAL srv ip) ip).ipRequests ip =
      lookupStr srv.ipRequests ip ∧
    lookupStr (on_disconnect false srv ip).wssAccounts ip = none ∧
    (on_disconnect true srv ip).wssAccounts = srv.wssAccounts := by
  refine ⟨?_, ?_, ?_⟩
  · simp [on_connect, on_disconnect_ipRequests, hip]
  · by_cases hk : hasKey srv.wssAccounts ip = true
    · simp [on_disconnect, hk, lookupStr_removeKey_self]
    · have hk2 := eq_false_of_ne_true hk
      simp [on_disconnect, hk2, lookup_eq_none_of_not_hasKey _ _ hk2]
  · simp [on_disconnect]

/-- Witness for `reconnect_counter_and_link` at a connected identity
with history and a linked account. -/
theorem reconnect_counter_and_link_witness :
    hasKey srvConn.ipRequests "1.2.3.4" = true ∧
    lookupStr (on_connect (on_disconnect false srvConn "1.2.3.4")
      "1.2.3.4").ipRequests "1.2.3.4" = lookupStr srvConn.ipRequests "1.2.3.4" ∧
    lookupStr (on_disconnect false srvConn "1.2.3.4").wssAccounts "1.2.3.4" =
      none ∧
    (on_disconnect true srvConn "1.2.3.4").wssAccounts = srvConn.wssAccounts :=
  ⟨by decide,
    (reconnect_counter_and_link false srvConn "1.2.3.4" (by decide)).1,
    (reconnect_counter_and_link false srvConn "1.2.3.4" (by decide)).2.1,
    (reconnect_counter_and_link false srvConn "1.2.3.4" (by decide)).2.2⟩

theorem gen_id_length (rand : Nat → Nat) : (gen_id rand).length = 15 := by
  simp [gen_id, String.length]

theorem id_charset_alnum : ∀ x ∈ id_charset, x.isAlphanum = true := by decide

theorem gen_id_alnum (rand : Nat → Nat) :
    ∀ c ∈ (gen_id rand).data, c.isAlphanum = true := by
  intro c hc
  simp only [gen_id, String.data] at hc
  rw [List.mem_map] at hc
  obtain ⟨i, _, rfl⟩ := hc
  rcases h : id_charset[(rand i % id_charset.length)]? with _ | x
  · simp [List.getD_eq_getElem?_getD, h]
  · have hx : x ∈ id_charset := by
      obtain ⟨hn, rfl⟩ := List.getElem?_eq_some_iff.mp h
      exact List.getElem_mem hn
    simp [List.getD_eq_getElem?_getD, h, id_charset_alnum x hx]

theorem create_traveller_already_logged_in (IS_LOCAL : Bool)
    (ve : String → Option String) (hp : String → String) (rand : Nat → Nat)
    (st : AuthState) (ip event : String) (r : Val) (nm em pw : String)
    (h : check_account st ip = true) :
    (create_traveller IS_LOCAL ve hp rand st ip event r nm em pw).2 =
      format_res_err event "AlreadyLoggedIn"
        (Val.str "You are currently logged in. Logout and try again.") r
        false [] := by
  simp [create_traveller, h]

/-- C9: on an identity with no account link, `createTraveller` with a
valid name, email and password returns the success envelope carrying
the inbound ref and a 15-character alphanumeric `travellerId`, and
links the identity to the new account; any further `createTraveller`
from the same identity is answered with an `AlreadyLoggedIn` error
envelope. -/
theorem create_traveller_end_to_end (IS_LOCAL : Bool)
    (validate_email : String → Option String) (hashpw : String → String)
    (rand : Nat → Nat) (st : AuthState) (ip event : String) (r : Val)
    (nm em pw : String)
    (hacct : check_account st ip = false)
    (hname : (decide (MIN_ACCOUNT_NAME ≤ (py_strip nm).length) &&
      decide ((py_strip nm).length ≤ MAX_ACCOUNT_NAME)) = true)
    (hemail : validate_email em = none)
    (hpass : (decide (MIN_PASS_LENGTH ≤ (py_strip pw).length) &&
      decide ((py_strip pw).length ≤ MAX_PASS_LENGTH)) = true)
    (htaken : email_taken IS_LOCAL st em = false) :
    (create_traveller IS_LOCAL validate_email hashpw rand st ip event r
      nm em pw).2 =
      format_res event r [("travellerId", Val.str (gen_id rand))] ∧
    (gen_id rand).length = 15 ∧
    (∀ c ∈ (gen_id rand).data, c.isAlphanum = true) ∧
    lookupStr (create_traveller IS_LOCAL validate_email hashpw rand st ip
      event r nm em pw).1.srv.wssAccounts ip = some (gen_id rand) ∧
    (∀ (ve2 : String → Option String) (hp2 : String → String)
      (rand2 : Nat → Nat) (event2 : String) (r2 : Val) (nm2 em2 pw2 : String),
      (create_traveller IS_LOCAL ve2 hp2 rand2
        (create_traveller IS_LOCAL validate_email hashpw rand st ip event r
          nm em pw).1 ip event2 r2 nm2 em2 pw2).2 =
      format_res_err event2 "AlreadyLoggedIn"
        (Val.str "You are currently logged in. Logout and try again.") r2
        false []) := by
  have hlk : lookupStr (create_traveller IS_LOCAL validate_email hashpw rand
      st ip event r nm em pw).1.srv.wssAccounts ip = some (gen_id rand) := by
    cases IS_LOCAL <;>
      simp [create_traveller, hacct, hname, hemail, hpass, htaken,
        lookupStr_dinsert]
  refine ⟨?_, gen_id_length rand, gen_id_alnum rand, hlk, ?_⟩
  · cases IS_LOCAL <;>
      simp [create_traveller, hacct, hname, hemail, hpass, htaken]
  · intro ve2 hp2 rand2 event2 r2 nm2 em2 pw2
    exact create_traveller_already_logged_in IS_LOCAL ve2 hp2 rand2 _ ip
      event2 r2 nm2 em2 pw2 (by simp [check_account, hasKey, hlk])

/-- Witness for `create_traveller_end_to_end`: Bob signs up on a fresh
local-mode state with ref `r1`. -/
theorem create_traveller_end_to_end_witness :
    check_account stFresh "1.2.3.4" = false ∧
    (decide (MIN_ACCOUNT_NAME ≤ (py_strip "Bob").length) &&
      decide ((py_strip "Bob").length ≤ MAX_ACCOUNT_NAME)) = true ∧
    (fun (_ : String) => (none : Option String)) "bob@x.com" = none ∧
    (decide (MIN_PASS_LENGTH ≤ (py_strip "longenoughpw").length) &&
      decide ((py_strip "longenoughpw").length ≤ MAX_PASS_LENGTH)) = true ∧
    email_taken true stFresh "bob@x.com" = false ∧
    ((create_traveller true (fun _ => none) (fun s => s) (fun _ => 0) stFresh
        "1.2.3.4" "createTraveller" (Val.str "r1") "Bob" "bob@x.com"
        "longenoughpw").2 =
      format_res "createTraveller" (Val.str "r1")
        [("travellerId", Val.str (gen_id (fun _ => 0)))] ∧
    (gen_id (fun _ => 0)).length = 15 ∧
    (∀ c ∈ (gen_id (fun _ => 0)).data, c.isAlphanum = true) ∧
    lookupStr (create_traveller true (fun _ => none) (fun s => s) (fun _ => 0)
      stFresh "1.2.3.4" "createTraveller" (Val.str "r1") "Bob" "bob@x.com"
      "longenoughpw").1.srv.wssAccounts "1.2.3.4" =
      some (gen_id (fun _ => 0)) ∧
    (∀ (ve2 : String → Option String) (hp2 : String → String)
      (rand2 : Nat → Nat) (event2 : String) (r2 : Val) (nm2 em2 pw2 : String),
      (create_traveller true ve2 hp2 rand2
        (create_traveller true (fun _ => none) (fun s => s) (fun _ => 0)
          stFresh "1.2.3.4" "createTraveller" (Val.str "r1") "Bob" "bob@x.com"
          "longenoughpw").1 "1.2.3.4" event2 r2 nm2 em2 pw2).2 =
      format_res_err event2 "AlreadyLoggedIn"
        (Val.str "You are currently logged in. Logout and try again.") r2
        false [])) :=
  ⟨rfl, by decide, rfl, by decide, rfl,
    create_traveller_end_to_end true (fun _ => none) (fun s => s) (fun _ => 0)
      stFresh "1.2.3.4" "createTraveller" (Val.str "r1") "Bob" "bob@x.com"
      "longenoughpw" rfl (by decide) rfl (by decide) rfl⟩
